import Mathlib

/-!
Shallow embedding of the learning-progress tracker backend
(`backend/app`): the record types (`models/progress.py`), the
task-completion mutator and HTTP handlers (`api/progress.py`), the
certification-readiness analytics (`models/analytics.py`), and the
retention sweep (`utils/tasks.py`).

Modelling conventions:
* Python dicts that the code indexes by string keys are embedded as
  association lists (`List (String × _)`) with insertion-order-preserving
  update, matching dict semantics on the paths the code exercises; a read
  of a missing key (Python `KeyError`) is modelled by `Option`.
* Python `int(points * multiplier)` with multiplier 1.5 / 1.2 / 1.0 is
  embedded as exact integer arithmetic `(points * 3).tdiv 2`,
  `(points * 6).tdiv 5`, `points` (`Int.tdiv` truncates toward zero
  exactly as Python `int()` does on the product).
* The gateway (`db_manager.save_progress`) catches every I/O fault and
  returns a boolean, so a handler sees the save outcome only as a `Bool`;
  handlers take that outcome as an explicit `saveOk` argument.
* Timestamps used by the retention sweep are embedded as integers in
  units of days.
-/

/-- A portfolio entry as built inline in `complete_task`
(`api/progress.py`): `{id, name, completedDate, type, xp}`. -/
structure PortfolioItem where
  id : String
  name : String
  completedDate : String
  type : String
  xp : Int
deriving Repr, DecidableEq

/-- `ProgressData` (`models/progress.py`), with each pydantic field default. -/
structure ProgressData where
  currentWeek : Int := 1
  currentDay : Int := 1
  totalXP : Int := 0
  dailyXP : Int := 0
  streak : Int := 0
  completedTasks : List String := []
  struggledTasks : List String := []
  notes : List (String × String) := []
  portfolioItems : List PortfolioItem := []
  certificationProgress : List (String × Int) :=
    [("Google Cloud AI", 0), ("AWS ML Specialty", 0), ("Azure AI Engineer", 0)]
  difficultyLevel : String := "medium"
  lastUpdated : Option String := none
deriving Repr, DecidableEq

/-- `ProgressData()` with no arguments: the fresh default snapshot. -/
def defaultProgress : ProgressData := {}

/-- `TaskCompletion` (`models/progress.py`). -/
structure TaskCompletion where
  taskId : String
  points : Int
  time : ℚ
  category : String
  notes : Option String := none
  difficulty : String := "medium"
deriving Repr, DecidableEq

/-- Association-list read, mirroring a Python dict read `d[k]` /
`k in d`: `none` models a `KeyError`. -/
def getA {α : Type} (k : String) : List (String × α) → Option α
  | [] => none
  | kv :: rest => if kv.1 = k then some kv.2 else getA k rest

/-- Association-list write, mirroring Python dict assignment `d[k] = v`:
replaces in place when the key is present, appends when absent. -/
def setA {α : Type} (k : String) (v : α) : List (String × α) → List (String × α)
  | [] => [(k, v)]
  | kv :: rest => if kv.1 = k then (kv.1, v) :: rest else kv :: setA k v rest

/-- `int(completion.points * multiplier)` with
`multiplier = 1.5 if category == "capstone" else 1.2 if category == "project"
else 1.0` (`api/progress.py` lines 56–61), in exact integer arithmetic. -/
def earnedXP (category : String) (points : Int) : Int :=
  if category = "capstone" then (points * 3).tdiv 2
  else if category = "project" then (points * 6).tdiv 5
  else points

/-- `cert_progress_map = {"ai": 5, "production": 3, "project": 2,
"capstone": 10}` with `.get(category, 1)` (`api/progress.py` lines 66–67). -/
def certIncrease (category : String) : Int :=
  if category = "ai" then 5
  else if category = "production" then 3
  else if category = "project" then 2
  else if category = "capstone" then 10
  else 1

/-- The body of the first-completion branch of `complete_task`
(`api/progress.py` lines 53–85), given the current value `cur` of
`certificationProgress["Google Cloud AI"]`.  `nowStr` stands for
`datetime.now().isoformat()`. -/
def mutate (nowStr : String) (p : ProgressData) (c : TaskCompletion)
    (cur : Int) : ProgressData :=
  { p with
    completedTasks := p.completedTasks ++ [c.taskId]
    totalXP := p.totalXP + earnedXP c.category c.points
    dailyXP := p.dailyXP + earnedXP c.category c.points
    certificationProgress :=
      setA "Google Cloud AI" (min 100 (cur + certIncrease c.category))
        p.certificationProgress
    portfolioItems :=
      if c.category = "project" ∨ c.category = "capstone" then
        p.portfolioItems ++
          [{ id := c.taskId
             name := "Task: " ++ c.taskId
             completedDate := nowStr
             type := c.category
             xp := earnedXP c.category c.points }]
      else p.portfolioItems
    notes :=
      match c.notes with
      | some n => if n = "" then p.notes else setA c.taskId n p.notes
      | none => p.notes }

/-- The Progress Mutator: the `if completion.taskId not in
progress.completedTasks` block of `complete_task` (`api/progress.py`
lines 52–85).  Returns the updated snapshot together with `earned_xp`;
`none` models the `KeyError` raised when `certificationProgress` lacks
the `"Google Cloud AI"` key (caught by the handler as a 500). -/
def applyCompletion (nowStr : String) (p : ProgressData)
    (c : TaskCompletion) : Option (ProgressData × Int) :=
  if c.taskId ∈ p.completedTasks then some (p, 0)
  else
    match getA "Google Cloud AI" p.certificationProgress with
    | none => none
    | some cur => some (mutate nowStr p c cur, earnedXP c.category c.points)

/-- Sequencing of completion events through the mutator. -/
def applyEvents (nowStr : String) (p : ProgressData) :
    List TaskCompletion → Option ProgressData
  | [] => some p
  | c :: cs =>
    match applyCompletion nowStr p c with
    | none => none
    | some (p', _) => applyEvents nowStr p' cs

/-- An HTTP handler outcome: a 200 payload, a 404, or a generic 500. -/
inductive Response (α : Type) where
  | ok : α → Response α
  | notFound : Response α
  | serverError : Response α
deriving Repr, DecidableEq

/-- The JSON body returned by `POST /task/complete`. -/
structure CompleteResponse where
  success : Bool
  message : String
  xp_earned : Int
  total_xp : Int
deriving Repr, DecidableEq

/-- The JSON body returned by `POST /progress`. -/
structure SaveResponse where
  success : Bool
  message : String
deriving Repr, DecidableEq

/-- `GET /progress` (`api/progress.py` lines 12–24): the stored snapshot
if any, else a fresh `ProgressData()`.  `db_manager.load_progress`
catches its own faults and returns `None`, so the handler only ever sees
an `Option` and always answers 200. -/
def get_progress (stored : Option ProgressData) : Response ProgressData :=
  Response.ok (stored.getD defaultProgress)

/-- `POST /progress` (`api/progress.py` lines 27–41): stamps
`lastUpdated`, saves, and turns a `False` save outcome into a 500.
Returns the response together with the snapshot handed to the gateway. -/
def save_progress (p : ProgressData) (nowStr : String) (saveOk : Bool) :
    Response SaveResponse × Option ProgressData :=
  if saveOk then
    (Response.ok { success := true, message := "Progress saved successfully" },
     some { p with lastUpdated := some nowStr })
  else (Response.serverError, some { p with lastUpdated := some nowStr })

/-- `POST /task/complete` (`api/progress.py` lines 44–101): loads the
snapshot (`or ProgressData()`), runs the mutator, saves — note the save
outcome `saveOk` is never consulted — and builds the response, whose
`xp_earned` re-tests membership of `taskId` in `completedTasks` after
the mutation.  Returns the response together with the snapshot handed to
the gateway (`none` when the `KeyError` aborts before the save). -/
def complete_task (stored : Option ProgressData) (c : TaskCompletion)
    (nowStr : String) (saveOk : Bool) :
    Response CompleteResponse × Option ProgressData :=
  match applyCompletion nowStr (stored.getD defaultProgress) c with
  | none => (Response.serverError, none)
  | some (p', earned) =>
    (Response.ok
      { success := true
        message := "Task completed successfully"
        xp_earned := if c.taskId ∉ p'.completedTasks then earned else 0
        total_xp := p'.totalXP },
     some p')

/-- One entry of `predict_certification_readiness`
(`models/analytics.py` lines 29–43), for a single percentage. -/
structure CertReadiness where
  current_progress : Int
  estimated_days_to_ready : ℚ
  confidence_level : String
  recommended_focus : String
deriving Repr, DecidableEq

/-- The per-certification readiness record: `estimated_days = max(1,
(100 - progress_pct) / 2)` is float division in the source, embedded
exactly as rational division (exact for these operands). -/
def readinessEntry (pct : Int) : CertReadiness :=
  { current_progress := pct
    estimated_days_to_ready := max 1 ((100 - (pct : ℚ)) / 2)
    confidence_level :=
      if pct > 70 then "high" else if pct > 40 then "medium" else "low"
    recommended_focus :=
      if pct > 60 then "practice_exams" else "foundation_building" }

/-- `predict_certification_readiness` (`models/analytics.py`): one
readiness record per `certificationProgress` entry. -/
def predict_certification_readiness (p : ProgressData) :
    List (String × CertReadiness) :=
  p.certificationProgress.map (fun kv => (kv.1, readinessEntry kv.2))

/-- One `spaced_repetition` table row, with `nextReview` in days. -/
structure SpacedRepetitionRow where
  userId : String
  taskId : String
  nextReview : ℤ
deriving Repr, DecidableEq

/-- `cleanup_old_data` (`utils/tasks.py`): `DELETE FROM spaced_repetition
WHERE next_review < cutoff` with `cutoff = now - 30 days`; the result is
the table after the delete.  (The sweep only runs against the relational
backend and swallows faults; this models the successful relational run.) -/
def cleanup_old_data (now : ℤ) (table : List SpacedRepetitionRow) :
    List SpacedRepetitionRow :=
  table.filter (fun r => if r.nextReview < now - 30 then false else true)

/-! ### Concrete inputs used by witnesses and counterexamples -/

/-- A completion event in category `"ai"` worth 100 points. -/
def ev0 : TaskCompletion :=
  { taskId := "t1", points := 100, time := 1, category := "ai" }

/-- A completion event in category `"capstone"` worth 100 points. -/
def evCap : TaskCompletion :=
  { taskId := "t2", points := 100, time := 1, category := "capstone" }

/-- The snapshot produced by completing `evCap` on a fresh default. -/
def capSnap : ProgressData := mutate "d" defaultProgress evCap 0

/-- The response body `POST /task/complete` returns for `ev0` on a
fresh default snapshot. -/
def c1resp : CompleteResponse :=
  { success := true, message := "Task completed successfully",
    xp_earned := 0, total_xp := 100 }

/-- A snapshot whose `"Google Cloud AI"` certification sits at 75. -/
def snap75 : ProgressData :=
  { defaultProgress with
    certificationProgress :=
      [("Google Cloud AI", 75), ("AWS ML Specialty", 0), ("Azure AI Engineer", 0)] }

/-- A review row whose `nextReview` is 31 days before day 1000. -/
def row31 : SpacedRepetitionRow :=
  { userId := "u", taskId := "t31", nextReview := 969 }

/-- A review row whose `nextReview` is 29 days before day 1000. -/
def row29 : SpacedRepetitionRow :=
  { userId := "u", taskId := "t29", nextReview := 971 }

/-! ### Association-list lemmas -/

/-- Reading the key just written returns the written value. -/
theorem getA_setA_self {α : Type} (k : String) (v : α)
    (l : List (String × α)) : getA k (setA k v l) = some v := by
  induction l with
  | nil => simp [setA, getA]
  | cons hd tl ih =>
    by_cases h : hd.1 = k
    · simp [setA, getA, h]
    · simp [setA, getA, h, ih]

/-- Writing one key leaves every other key's value unchanged. -/
theorem getA_setA_ne {α : Type} {k k' : String} (hne : k' ≠ k) (v : α)
    (l : List (String × α)) : getA k' (setA k v l) = getA k' l := by
  induction l with
  | nil => simp [setA, getA, Ne.symm hne]
  | cons hd tl ih =>
    by_cases h : hd.1 = k
    · by_cases h2 : hd.1 = k'
      · exact absurd (h.symm.trans h2) (Ne.symm hne)
      · simp [setA, getA, h, h2, Ne.symm hne]
    · by_cases h2 : hd.1 = k' <;> simp [setA, getA, h, h2, hne, ih]

/-- Writing a key that is already present preserves the key sequence. -/
theorem map_fst_setA {α : Type} {k : String} {w : α}
    (l : List (String × α)) (hmem : getA k l = some w) (v : α) :
    (setA k v l).map Prod.fst = l.map Prod.fst := by
  induction l with
  | nil => cases hmem
  | cons hd tl ih =>
    by_cases h : hd.1 = k
    · simp [setA, h]
    · rw [getA, if_neg h] at hmem
      simp [setA, h, ih hmem]

/-- `getA` commutes with the per-entry readiness map. -/
theorem getA_map_readiness (k : String) (l : List (String × Int)) :
    getA k (l.map (fun kv => (kv.1, readinessEntry kv.2))) =
      (getA k l).map readinessEntry := by
  induction l with
  | nil => rfl
  | cons hd tl ih =>
    by_cases h : hd.1 = k <;> simp [getA, h, ih]

/-! ### Mutator lemmas -/

/-- Every certification-increase value is at least 1. -/
theorem certIncrease_pos (category : String) : 1 ≤ certIncrease category := by
  unfold certIncrease
  split_ifs <;> norm_num

/-- Case analysis for a successful run of the mutator. -/
theorem applyCompletion_eq_some {nowStr : String} {p : ProgressData}
    {c : TaskCompletion} {p' : ProgressData} {e : Int}
    (h : applyCompletion nowStr p c = some (p', e)) :
    (c.taskId ∈ p.completedTasks ∧ p' = p ∧ e = 0) ∨
    (c.taskId ∉ p.completedTasks ∧ ∃ cur,
      getA "Google Cloud AI" p.certificationProgress = some cur ∧
      p' = mutate nowStr p c cur ∧ e = earnedXP c.category c.points) := by
  unfold applyCompletion at h
  by_cases hm : c.taskId ∈ p.completedTasks
  · rw [if_pos hm] at h
    injection h with h1
    injection h1 with h2 h3
    exact Or.inl ⟨hm, h2.symm, h3.symm⟩
  · rw [if_neg hm] at h
    cases hg : getA "Google Cloud AI" p.certificationProgress with
    | none => rw [hg] at h; cases h
    | some cur =>
      rw [hg] at h
      injection h with h1
      injection h1 with h2 h3
      exact Or.inr ⟨hm, cur, rfl, h2.symm, h3.symm⟩

/-- After a successful mutator run the task id is in `completedTasks`. -/
theorem mem_after_apply {nowStr : String} {p : ProgressData}
    {c : TaskCompletion} {p' : ProgressData} {e : Int}
    (h : applyCompletion nowStr p c = some (p', e)) :
    c.taskId ∈ p'.completedTasks := by
  rcases applyCompletion_eq_some h with ⟨hm, rfl, _⟩ | ⟨_, cur, _, rfl, _⟩
  · exact hm
  · simp [mutate]

/-! ### Claims -/

/-- Claim C1: on `POST /task/complete`, for every completion event whose
task id is not already in the loaded snapshot's `completedTasks`, the
response reports `xp_earned = 0` (membership in `completedTasks` is
tested after the task id was appended) while `total_xp` in the same
response includes the newly earned XP; on the already-completed branch
`xp_earned` is also 0. -/
theorem C1_xp_earned_always_zero (stored : Option ProgressData)
    (c : TaskCompletion) (nowStr : String) (saveOk : Bool)
    (r : CompleteResponse) (saved : Option ProgressData)
    (h : complete_task stored c nowStr saveOk = (Response.ok r, saved)) :
    r.xp_earned = 0 ∧
      (c.taskId ∉ (stored.getD defaultProgress).completedTasks →
        r.total_xp = (stored.getD defaultProgress).totalXP +
          earnedXP c.category c.points) := by
  unfold complete_task at h
  cases ha : applyCompletion nowStr (stored.getD defaultProgress) c with
  | none =>
    rw [ha] at h
    injection h with h1 h2
    exact Response.noConfusion h1
  | some pe =>
    obtain ⟨p', earned⟩ := pe
    rw [ha] at h
    injection h with h1 h2
    injection h1 with hr
    subst hr
    have hmem := mem_after_apply ha
    constructor
    · simp [hmem]
    · intro hnot
      rcases applyCompletion_eq_some ha with ⟨hm, _, _⟩ | ⟨_, cur, hg, rfl, _⟩
      · exact absurd hm hnot
      · simp [mutate]

/-- Witness for C1: a fresh default snapshot and the 100-point `"ai"`
event `ev0`. -/
theorem C1_witness :
    complete_task none ev0 "d" false =
      (Response.ok c1resp, some (mutate "d" defaultProgress ev0 0)) ∧
    (c1resp.xp_earned = 0 ∧
      (ev0.taskId ∉ ((none : Option ProgressData).getD defaultProgress).completedTasks →
        c1resp.total_xp = ((none : Option ProgressData).getD defaultProgress).totalXP +
          earnedXP ev0.category ev0.points)) :=
  ⟨by decide,
   C1_xp_earned_always_zero none ev0 "d" false c1resp
     (some (mutate "d" defaultProgress ev0 0)) (by decide)⟩

/-- Claim C2: the mutator is idempotent — after one successful
application of a completion event, applying the same event again returns
the snapshot unchanged with `xpEarned = 0`, so `completedTasks`,
`totalXP`, `certificationProgress` and `portfolioItems` are identical to
applying it once. -/
theorem C2_idempotent (n1 n2 : String) (p : ProgressData)
    (c : TaskCompletion) (p1 : ProgressData) (e1 : Int)
    (h : applyCompletion n1 p c = some (p1, e1)) :
    applyCompletion n2 p1 c = some (p1, 0) := by
  have hmem := mem_after_apply h
  unfold applyCompletion
  rw [if_pos hmem]

/-- Witness for C2: the capstone event `evCap` on a fresh default. -/
theorem C2_witness :
    applyCompletion "d" defaultProgress evCap = some (capSnap, 150) ∧
    applyCompletion "d2" capSnap evCap = some (capSnap, 0) :=
  ⟨by decide, C2_idempotent "d" "d2" defaultProgress evCap capSnap 150 (by decide)⟩

/-- Counterexample for C3: with a fresh default snapshot, the `"ai"`
event `ev0`, and the gateway save reporting failure (`saveOk = false`),
`POST /task/complete` still answers 200 with a success body, not a
generic 500 — the handler never consults the save outcome. -/
theorem C3_counterexample :
    (complete_task none ev0 "2025-01-01T00:00:00" false).1 =
      Response.ok c1resp ∧
    (complete_task none ev0 "2025-01-01T00:00:00" false).1 ≠
      Response.serverError := by
  constructor <;> decide

/-- Claim C3 as amended: `POST /progress` turns a failed gateway save
into a generic 500 (and a successful one into a success body), but
`POST /task/complete` ignores the gateway save outcome entirely — its
response is identical whether the save succeeds or fails. -/
theorem C3_amended :
    (∀ (p : ProgressData) (nowStr : String),
      (save_progress p nowStr false).1 = Response.serverError) ∧
    (∀ (p : ProgressData) (nowStr : String),
      (save_progress p nowStr true).1 =
        Response.ok { success := true, message := "Progress saved successfully" }) ∧
    (∀ (stored : Option ProgressData) (c : TaskCompletion) (nowStr : String),
      (complete_task stored c nowStr false).1 =
        (complete_task stored c nowStr true).1) :=
  ⟨fun _ _ => rfl, fun _ _ => rfl, fun _ _ _ => rfl⟩

/-- One mutator step keeps `certificationProgress["Google Cloud AI"]`
present, at least its prior value, and at most 100. -/
theorem cert_step {nowStr : String} {p : ProgressData} {c : TaskCompletion}
    {p' : ProgressData} {e : Int}
    (h : applyCompletion nowStr p c = some (p', e)) {v : Int}
    (hv : getA "Google Cloud AI" p.certificationProgress = some v)
    (hle : v ≤ 100) :
    ∃ w, getA "Google Cloud AI" p'.certificationProgress = some w ∧
      v ≤ w ∧ w ≤ 100 := by
  rcases applyCompletion_eq_some h with ⟨_, rfl, _⟩ | ⟨_, cur, hg, rfl, _⟩
  · exact ⟨v, hv, le_refl v, hle⟩
  · rw [hv] at hg
    injection hg with hcur
    subst hcur
    refine ⟨min 100 (v + certIncrease c.category), ?_, ?_, min_le_left _ _⟩
    · exact getA_setA_self _ _ _
    · exact le_min hle (le_add_of_nonneg_right
        (le_trans (by norm_num) (certIncrease_pos c.category)))

/-- Claim C4: starting from any snapshot of the data model (the
`"Google Cloud AI"` entry present and, per the spec's data model, at
most 100), any sequence of completion events leaves that entry at most
100 and never below its starting value — each first-time completion sets
it to `min(100, current + certIncrease)`. -/
theorem C4_cert_clamped_monotone (nowStr : String)
    (events : List TaskCompletion) :
    ∀ (p : ProgressData) (v : Int),
      getA "Google Cloud AI" p.certificationProgress = some v → v ≤ 100 →
      ∀ q : ProgressData, applyEvents nowStr p events = some q →
      ∃ w, getA "Google Cloud AI" q.certificationProgress = some w ∧
        v ≤ w ∧ w ≤ 100 := by
  induction events with
  | nil =>
    intro p v hv hle q hq
    unfold applyEvents at hq
    injection hq with h1
    subst h1
    exact ⟨v, hv, le_refl v, hle⟩
  | cons c cs ih =>
    intro p v hv hle q hq
    unfold applyEvents at hq
    cases ha : applyCompletion nowStr p c with
    | none => rw [ha] at hq; cases hq
    | some pe =>
      obtain ⟨p', e⟩ := pe
      rw [ha] at hq
      obtain ⟨w, hw, hvw, hw100⟩ := cert_step ha hv hle
      obtain ⟨w2, hw2, hww2, h100⟩ := ih p' w hw hw100 q hq
      exact ⟨w2, hw2, le_trans hvw hww2, h100⟩

/-- Witness for C4: one capstone completion on the fresh default. -/
theorem C4_witness :
    getA "Google Cloud AI" defaultProgress.certificationProgress = some 0 ∧
    (0 : Int) ≤ 100 ∧
    applyEvents "d" defaultProgress [evCap] = some capSnap ∧
    ∃ w, getA "Google Cloud AI" capSnap.certificationProgress = some w ∧
      0 ≤ w ∧ w ≤ 100 :=
  ⟨rfl, by decide, by decide,
   C4_cert_clamped_monotone "d" [evCap] defaultProgress 0 rfl (by decide)
     capSnap (by decide)⟩

/-- Claim C5: a successful completion touches only the
`"Google Cloud AI"` entry of `certificationProgress` — the
`"AWS ML Specialty"` and `"Azure AI Engineer"` values are unchanged and
the mapping neither gains nor loses keys. -/
theorem C5_only_google_cert_touched (nowStr : String) (p : ProgressData)
    (c : TaskCompletion) (p' : ProgressData) (e : Int)
    (h : applyCompletion nowStr p c = some (p', e)) :
    getA "AWS ML Specialty" p'.certificationProgress =
      getA "AWS ML Specialty" p.certificationProgress ∧
    getA "Azure AI Engineer" p'.certificationProgress =
      getA "Azure AI Engineer" p.certificationProgress ∧
    p'.certificationProgress.map Prod.fst =
      p.certificationProgress.map Prod.fst := by
  rcases applyCompletion_eq_some h with ⟨_, rfl, _⟩ | ⟨_, cur, hg, rfl, _⟩
  · exact ⟨rfl, rfl, rfl⟩
  · exact ⟨getA_setA_ne (by decide) _ _, getA_setA_ne (by decide) _ _,
      map_fst_setA _ hg _⟩

/-- Witness for C5: the capstone event `evCap` on the fresh default. -/
theorem C5_witness :
    applyCompletion "d" defaultProgress evCap = some (capSnap, 150) ∧
    (getA "AWS ML Specialty" capSnap.certificationProgress =
       getA "AWS ML Specialty" defaultProgress.certificationProgress ∧
     getA "Azure AI Engineer" capSnap.certificationProgress =
       getA "Azure AI Engineer" defaultProgress.certificationProgress ∧
     capSnap.certificationProgress.map Prod.fst =
       defaultProgress.certificationProgress.map Prod.fst) :=
  ⟨by decide,
   C5_only_google_cert_touched "d" defaultProgress evCap capSnap 150 (by decide)⟩

/-- Claim C6: on a first-time completion with `points = 100`, the earned
XP added to `totalXP` is 150 for `"capstone"`, 120 for `"project"`, and
100 for `"ai"` or any other category. -/
theorem C6_category_multipliers (nowStr : String) (p : ProgressData)
    (c : TaskCompletion) (p' : ProgressData) (e : Int)
    (h : applyCompletion nowStr p c = some (p', e))
    (hnew : c.taskId ∉ p.completedTasks) (hpts : c.points = 100) :
    e = (if c.category = "capstone" then 150
         else if c.category = "project" then 120 else 100) ∧
    p'.totalXP = p.totalXP +
      (if c.category = "capstone" then 150
       else if c.category = "project" then 120 else 100) := by
  have he : earnedXP c.category 100 =
      (if c.category = "capstone" then 150
       else if c.category = "project" then 120 else 100) := by
    unfold earnedXP
    split_ifs <;> decide
  rcases applyCompletion_eq_some h with ⟨hm, _, _⟩ | ⟨_, cur, hg, rfl, rfl⟩
  · exact absurd hm hnew
  · rw [hpts, he]
    exact ⟨rfl, by simp [mutate, hpts, he]⟩

/-- Witness for C6: the capstone event `evCap` on the fresh default. -/
theorem C6_witness :
    applyCompletion "d" defaultProgress evCap = some (capSnap, 150) ∧
    evCap.taskId ∉ defaultProgress.completedTasks ∧
    evCap.points = 100 ∧
    ((150 : Int) = (if evCap.category = "capstone" then 150
       else if evCap.category = "project" then 120 else 100) ∧
     capSnap.totalXP = defaultProgress.totalXP +
       (if evCap.category = "capstone" then 150
        else if evCap.category = "project" then 120 else 100)) :=
  ⟨by decide, by decide, rfl,
   C6_category_multipliers "d" defaultProgress evCap capSnap 150
     (by decide) (by decide) rfl⟩

/-- Counterexample for C7: on the concrete snapshot `snap75` with
`certificationProgress["Google Cloud AI"] = 75`, the readiness entry's
`estimated_days_to_ready` is `max(1, (100-75)/2) = 12.5`, not 13 — the
code applies no rounding to the float division. -/
theorem C7_counterexample :
    getA "Google Cloud AI" snap75.certificationProgress = some 75 ∧
    getA "Google Cloud AI" (predict_certification_readiness snap75) =
      some (readinessEntry 75) ∧
    (readinessEntry 75).estimated_days_to_ready ≠ 13 ∧
    (readinessEntry 75).estimated_days_to_ready = 25 / 2 := by
  have hdays : (readinessEntry 75).estimated_days_to_ready = 25 / 2 := by
    show max 1 ((100 - ((75 : ℤ) : ℚ)) / 2) = 25 / 2
    rw [max_eq_right (by norm_num : (1 : ℚ) ≤ (100 - ((75 : ℤ) : ℚ)) / 2)]
    norm_num
  exact ⟨rfl, rfl, by rw [hdays]; norm_num, hdays⟩

/-- Claim C7 as amended: for every snapshot whose
`certificationProgress["Google Cloud AI"]` is 75, the readiness entry
for that key has `confidenceLevel = "high"`,
`recommendedFocus = "practice_exams"`, and
`estimatedDaysToReady = 12.5` (no rounding is applied). -/
theorem C7_readiness_at_75 (p : ProgressData)
    (h : getA "Google Cloud AI" p.certificationProgress = some 75) :
    getA "Google Cloud AI" (predict_certification_readiness p) =
      some (readinessEntry 75) ∧
    (readinessEntry 75).confidence_level = "high" ∧
    (readinessEntry 75).recommended_focus = "practice_exams" ∧
    (readinessEntry 75).estimated_days_to_ready = 25 / 2 := by
  refine ⟨?_, by decide, by decide, ?_⟩
  · unfold predict_certification_readiness
    rw [getA_map_readiness, h]
    rfl
  · show max 1 ((100 - ((75 : ℤ) : ℚ)) / 2) = 25 / 2
    rw [max_eq_right (by norm_num : (1 : ℚ) ≤ (100 - ((75 : ℤ) : ℚ)) / 2)]
    norm_num

/-- Witness for C7: the concrete snapshot `snap75`. -/
theorem C7_witness :
    getA "Google Cloud AI" snap75.certificationProgress = some 75 ∧
    (getA "Google Cloud AI" (predict_certification_readiness snap75) =
       some (readinessEntry 75) ∧
     (readinessEntry 75).confidence_level = "high" ∧
     (readinessEntry 75).recommended_focus = "practice_exams" ∧
     (readinessEntry 75).estimated_days_to_ready = 25 / 2) :=
  ⟨rfl, C7_readiness_at_75 snap75 rfl⟩

/-- Claim C8: `GET /progress` never answers 404 — it always answers 200
with the stored snapshot when one exists and otherwise with the fresh
default snapshot (`currentWeek = 1`, `totalXP = 0`, no completed tasks,
the three certifications at 0). -/
theorem C8_get_progress_never_404 :
    (∀ stored : Option ProgressData,
      get_progress stored = Response.ok (stored.getD defaultProgress)) ∧
    (∀ p : ProgressData, get_progress (some p) = Response.ok p) ∧
    get_progress none = Response.ok defaultProgress ∧
    defaultProgress.currentWeek = 1 ∧ defaultProgress.totalXP = 0 ∧
    defaultProgress.completedTasks = [] ∧
    defaultProgress.certificationProgress =
      [("Google Cloud AI", 0), ("AWS ML Specialty", 0), ("Azure AI Engineer", 0)] :=
  ⟨fun _ => rfl, fun _ => rfl, rfl, rfl, rfl, rfl, rfl⟩

/-- Claim C9: one retention sweep keeps exactly the rows whose
`nextReview` is not strictly earlier than `now − 30` days — a row 31
days in the past is deleted, a row 29 days in the past is retained, and
the surviving rows are an unchanged (order-preserving) selection of the
table. -/
theorem C9_retention_sweep (now : ℤ) (table : List SpacedRepetitionRow) :
    List.Sublist (cleanup_old_data now table) table ∧
    (∀ r : SpacedRepetitionRow,
      r ∈ cleanup_old_data now table ↔
        r ∈ table ∧ ¬ r.nextReview < now - 30) ∧
    (∀ r : SpacedRepetitionRow, r ∈ table → r.nextReview = now - 31 →
      r ∉ cleanup_old_data now table) ∧
    (∀ r : SpacedRepetitionRow, r ∈ table → r.nextReview = now - 29 →
      r ∈ cleanup_old_data now table) := by
  have hmem : ∀ r : SpacedRepetitionRow,
      r ∈ cleanup_old_data now table ↔
        r ∈ table ∧ ¬ r.nextReview < now - 30 := by
    intro r
    unfold cleanup_old_data
    rw [List.mem_filter]
    constructor
    · rintro ⟨h1, h2⟩
      refine ⟨h1, ?_⟩
      by_contra hc
      simp [hc] at h2
    · rintro ⟨h1, h2⟩
      exact ⟨h1, by simp [h2]⟩
  refine ⟨List.filter_sublist _, hmem, ?_, ?_⟩
  · intro r hr h31 hin
    have hk := (hmem r).1 hin
    rw [h31] at hk
    exact hk.2 (by linarith)
  · intro r hr h29
    exact (hmem r).2 ⟨hr, by rw [h29]; linarith⟩

/-- Witness for C9: day 1000 with one row 31 days old and one 29 days
old. -/
theorem C9_witness :
    (row31 ∈ [row31, row29] ∧ row31.nextReview = 1000 - 31 ∧
      row31 ∉ cleanup_old_data 1000 [row31, row29]) ∧
    (row29 ∈ [row31, row29] ∧ row29.nextReview = 1000 - 29 ∧
      row29 ∈ cleanup_old_data 1000 [row31, row29]) :=
  ⟨⟨by decide, by decide,
    (C9_retention_sweep 1000 [row31, row29]).2.2.1 row31 (by decide) (by decide)⟩,
   ⟨by decide, by decide,
    (C9_retention_sweep 1000 [row31, row29]).2.2.2 row29 (by decide) (by decide)⟩⟩

/-- Claim C10: with no stored snapshot, `POST /task/complete` neither
fails nor answers 404 — it applies the event to a fresh default
snapshot, hands the result to the gateway, and after the call the saved
snapshot has `completedTasks = [taskId]` and
`totalXP = floor(points * multiplier)`. -/
theorem C10_fresh_user_completion (c : TaskCompletion) (nowStr : String)
    (saveOk : Bool) :
    (complete_task none c nowStr saveOk).2 =
      some (mutate nowStr defaultProgress c 0) ∧
    (mutate nowStr defaultProgress c 0).completedTasks = [c.taskId] ∧
    (mutate nowStr defaultProgress c 0).totalXP =
      earnedXP c.category c.points ∧
    ∃ r, (complete_task none c nowStr saveOk).1 = Response.ok r ∧
      r.success = true ∧ r.total_xp = earnedXP c.category c.points := by
  have ha : applyCompletion nowStr defaultProgress c =
      some (mutate nowStr defaultProgress c 0, earnedXP c.category c.points) := by
    unfold applyCompletion
    rw [if_neg (by simp [defaultProgress] : c.taskId ∉ defaultProgress.completedTasks)]
    rfl
  have hc : complete_task none c nowStr saveOk =
      (Response.ok
        { success := true
          message := "Task completed successfully"
          xp_earned :=
            if c.taskId ∉ (mutate nowStr defaultProgress c 0).completedTasks
            then earnedXP c.category c.points else 0
          total_xp := (mutate nowStr defaultProgress c 0).totalXP },
       some (mutate nowStr defaultProgress c 0)) := by
    unfold complete_task
    rw [Option.getD_none, ha]
  refine ⟨by rw [hc], rfl, ?_, ?_⟩
  · show (0 : Int) + earnedXP c.category c.points = earnedXP c.category c.points
    exact zero_add _
  · refine ⟨_, by rw [hc], rfl, ?_⟩
    show (mutate nowStr defaultProgress c 0).totalXP = earnedXP c.category c.points
    show (0 : Int) + earnedXP c.category c.points = earnedXP c.category c.points
    exact zero_add _
